import Mathlib

/-!
Verification development for the Order_Service repository
(FastAPI CRUD microservice for orders / payments / order-details).

Shallow embedding conventions:
* UUIDs and UTC timestamps are opaque identifiers; both are embedded as `Nat`
  (`uuid4()` / `datetime.utcnow()` results are passed in explicitly as
  parameters wherever the Python code generates them).
* Monetary `float` fields are embedded as `Int`: no claim depends on
  floating-point arithmetic, only on equality and ordering of values.
* ETag strings are `List Char`; the double-quote character is `dq`.
* `generate_etag` in `src/utils/etag.py` serializes `data.model_dump(mode='json')`
  with `json.dumps(..., sort_keys=True)` and MD5-hashes the bytes.  The
  embedding keeps the canonical sorted-key representation explicit
  (`canonOrder`) and abstracts the text rendering + MD5 pipeline as a
  `digest` parameter; collision-freedom of the digest on the concrete
  representations at hand is stated as an explicit hypothesis where a claim
  needs it.
* In-memory dict stores (`orders`, `order_details`, `task_statuses`) are
  embedded as functions from the key type to `Option` of the entity; a dict
  assignment is a pointwise functional update.
* `models/order.py` declares `OrderRead` WITHOUT a `links` field, while
  `resources/order_resource.py` and the `main.py` handlers store and read
  `.links` on it (the sibling models `PaymentRead` / `OrderDetailRead` do
  declare `links`).  The embedding models pydantic's behavior for the
  undeclared field faithfully: the `links=...` keyword passed to the
  `OrderRead` constructor is silently dropped (default extra handling), a
  read of `order.links` raises `AttributeError`, an assignment
  `order.links = ...` raises `ValueError`; these exceptions are the
  `OrderErr` values below, and, being no `HTTPException`, they surface as
  HTTP 500 from a handler.  Consequently the order endpoints crash wherever
  they touch `.links`; the claims that presuppose those paths succeeding are
  settled against this faithful behavior.  The declared pydantic field list
  — what `model_dump` emits, hence both the JSON body and the ETag input —
  is `orderReadFields` / `canonOrder`, which exclude `links` (claim C4).
-/

namespace OrderService

/-- Opaque UUID values (uuid4 outputs and client-supplied ids). -/
abbrev Uuid := Nat

/-- Opaque UTC timestamps (datetime.utcnow outputs and client-supplied dates). -/
abbrev Time := Nat

/-- The double-quote character used by the weak-ETag format. -/
def dq : Char := Char.ofNat 34

-- ---------------------------------------------------------------------------
-- src/utils/etag.py
-- ---------------------------------------------------------------------------

namespace Etag

/-- Embeds `normalize_etag` from src/utils/etag.py: strip the weak prefix
and quotes.  Python `etag[3:-1]` is `(·.drop 3).dropLast`, `etag[1:-1]` is
`(·.drop 1).dropLast`. -/
def normalize_etag (etag : List Char) : List Char :=
  if ['W', '/', dq].isPrefixOf etag then ((etag.drop 3).dropLast)
  else if [dq].isPrefixOf etag then ((etag.drop 1).dropLast)
  else etag

/-- Embeds `etag_match` from src/utils/etag.py. -/
def etag_match (etag1 etag2 : List Char) : Bool :=
  normalize_etag etag1 = normalize_etag etag2

/-- Embeds the tail of `generate_etag` from src/utils/etag.py: wrap the
hex digest of the canonically serialized representation in the weak
validator format `W/"<digest>"`.  The serialization+MD5 pipeline applied
to the canonical sorted-key dump is the `digest` argument. -/
def generate_etag (digest : α → List Char) (canon : α) : List Char :=
  'W' :: '/' :: dq :: (digest canon ++ [dq])

end Etag

-- ---------------------------------------------------------------------------
-- src/utils/links.py
-- ---------------------------------------------------------------------------

/-- Rendering of a UUID into a path segment (`str(uuid)` in Python). -/
def uuidStr (u : Uuid) : String := toString u

namespace Links

/-- Embeds `generate_order_links` from src/utils/links.py. -/
def generate_order_links (order_id : Uuid) : List (String × String) :=
  [("self", "/orders/" ++ uuidStr order_id),
   ("payments", "/payments?order_id=" ++ uuidStr order_id),
   ("order_details", "/order-details?order_id=" ++ uuidStr order_id)]

/-- Embeds `generate_order_detail_links` from src/utils/links.py. -/
def generate_order_detail_links (order_id prod_id : Uuid) : List (String × String) :=
  [("self", "/order-details/" ++ uuidStr order_id ++ "/" ++ uuidStr prod_id),
   ("order", "/orders/" ++ uuidStr order_id)]

end Links

-- ---------------------------------------------------------------------------
-- src/models/order.py
-- ---------------------------------------------------------------------------

/-- Embeds `OrderRead` from src/models/order.py with exactly its declared
pydantic fields.  Note there is NO `links` field (unlike `PaymentRead` and
`OrderDetailRead`): any `links` keyword passed to the constructor is
dropped, and every later `.links` access on an order raises (see
`OrderErr`). -/
structure OrderRead where
  order_id : Uuid
  user_id : Uuid
  order_date : Time
  total_price : Int
  status : String
  created_at : Time
  updated_at : Time
deriving DecidableEq, Repr

/-- Exceptions of the order resource layer: the explicit 404
`HTTPException`, and the two pydantic exceptions caused by the undeclared
`links` attribute of `OrderRead` — `AttributeError` when `order.links` is
read, `ValueError` when `order.links = ...` is assigned.  The latter two are
no `HTTPException`, so they propagate out of a handler as HTTP 500. -/
inductive OrderErr where
  | httpNotFound
  | attributeError
  | valueError
deriving DecidableEq, Repr

/-- The HTTP status an `OrderErr` produces at the framework boundary. -/
def OrderErr.toStatus : OrderErr → Nat
  | .httpNotFound => 404
  | .attributeError => 500
  | .valueError => 500

/-- Embeds `OrderCreate` from src/models/order.py (user_id, total_price,
status with default "pending"). -/
structure OrderCreate where
  user_id : Uuid
  total_price : Int
  status : String
deriving DecidableEq, Repr

/-- Embeds `OrderUpdate` from src/models/order.py: all four fields optional;
`none` is an unset field, excluded by `model_dump(exclude_unset=True)`. -/
structure OrderUpdate where
  user_id : Option Uuid
  order_date : Option Time
  total_price : Option Int
  status : Option String
deriving DecidableEq, Repr

/-- The declared pydantic fields of `OrderRead` (models/order.py:
`OrderBase` fields `order_id, user_id, order_date, total_price, status`
plus `created_at, updated_at` added by `OrderRead`).  There is no `links`
field, so `model_dump` on an order emits exactly these keys. -/
def orderReadFields : List String :=
  ["order_id", "user_id", "order_date", "total_price", "status",
   "created_at", "updated_at"]

/-- The declared pydantic fields of `OrderDetailRead` (src/models/order_detail.py),
which — unlike `OrderRead` — include `links`. -/
def orderDetailReadFields : List String :=
  ["order_id", "prod_id", "quantity", "subtotal", "created_at", "updated_at", "links"]

/-- The declared pydantic fields of `PaymentRead` (src/models/payment.py),
which — unlike `OrderRead` — include `links`. -/
def paymentReadFields : List String :=
  ["payment_id", "order_id", "payment_method", "payment_date", "amount",
   "created_at", "updated_at", "links"]

/-- JSON values occurring in an order's `model_dump(mode='json')`: UUIDs and
datetimes are rendered as strings, floats as numbers.  The typed constructors
stand for the (injective) per-type JSON renderings. -/
inductive JVal where
  | jUuid : Uuid → JVal
  | jTime : Time → JVal
  | jNum : Int → JVal
  | jStr : String → JVal
deriving DecidableEq, Repr

/-- The canonical serialized form of an order that `generate_etag` hashes:
`json.dumps(order.model_dump(mode='json'), sort_keys=True)`, i.e. the
declared `OrderRead` fields in sorted key order.  `links` is not among them
because models/order.py declares no such field on `OrderRead`. -/
def canonOrder (o : OrderRead) : List (String × JVal) :=
  [("created_at", JVal.jTime o.created_at),
   ("order_date", JVal.jTime o.order_date),
   ("order_id", JVal.jUuid o.order_id),
   ("status", JVal.jStr o.status),
   ("total_price", JVal.jNum o.total_price),
   ("updated_at", JVal.jTime o.updated_at),
   ("user_id", JVal.jUuid o.user_id)]

-- ---------------------------------------------------------------------------
-- src/resources/order_resource.py
-- ---------------------------------------------------------------------------

/-- The in-memory `orders` dict of src/resources/order_resource.py, as a
keyed partial map. -/
abbrev OrderStore := Uuid → Option OrderRead

namespace OrderResource

/-- Embeds `OrderResource.create_order`: build an `OrderRead` from the input
with generated id and `order_date = created_at = updated_at = now`, and
store it under the new id.  `order_id` and `now` stand for the `uuid4()` /
`datetime.utcnow()` calls.  The `links=generate_order_links(order_id)`
keyword of the source is silently dropped by pydantic (no declared `links`
field on `OrderRead`), so the stored order carries only the seven declared
fields. -/
def create_order (store : OrderStore) (order : OrderCreate) (order_id : Uuid)
    (now : Time) : OrderStore × OrderRead :=
  let new_order : OrderRead :=
    { order_id := order_id
      user_id := order.user_id
      order_date := now
      total_price := order.total_price
      status := order.status
      created_at := now
      updated_at := now }
  (fun k => if k = order_id then some new_order else store k, new_order)

/-- Embeds `OrderResource.get_order`: 404 when the id is absent; when it is
present, the links backfill check `if not order.links or len(order.links)
== 0` (order_resource.py:117) reads the undeclared `links` attribute and
raises `AttributeError`, so the function never returns a stored order. -/
def get_order (store : OrderStore) (order_id : Uuid) :
    Except OrderErr OrderRead :=
  match store order_id with
  | none => .error .httpNotFound
  | some _ => .error .attributeError

/-- The merged order constructed inside `OrderResource.update_order`:
`existing_order.model_dump()` updated with the
`update.model_dump(exclude_unset=True)` fields and a refreshed
`updated_at`, fed to `OrderRead(**updated_order_data)`.  Identity
(`order_id`) and `created_at` come from the existing order because
`OrderUpdate` has no such fields, and no `links` key exists in the dump.
This construction succeeds; the crash comes on the next source line. -/
def mergedOrder (existing_order : OrderRead) (update : OrderUpdate)
    (_order_id : Uuid) (now : Time) : OrderRead :=
  { order_id := existing_order.order_id
    user_id := update.user_id.getD existing_order.user_id
    order_date := update.order_date.getD existing_order.order_date
    total_price := update.total_price.getD existing_order.total_price
    status := update.status.getD existing_order.status
    created_at := existing_order.created_at
    updated_at := now }

/-- Embeds `OrderResource.update_order`: 404 (store untouched) when the id
is absent; when present, the merged order is constructed but the subsequent
`updated_order.links = generate_order_links(order_id)`
(order_resource.py:138) assigns the undeclared `links` field and raises
`ValueError` BEFORE `orders[order_id] = updated_order` runs — so no update
ever commits and the store is returned unchanged. -/
def update_order (store : OrderStore) (order_id : Uuid) (update : OrderUpdate)
    (now : Time) : OrderStore × Except OrderErr OrderRead :=
  match store order_id with
  | none => (store, .error .httpNotFound)
  | some existing_order =>
      let _updated_order := mergedOrder existing_order update order_id now
      (store, .error .valueError)

/-- Sequential equality / range filters of `OrderResource.get_orders`
(each applied only when the corresponding query parameter is given). -/
def filterOrders (user_id : Option Uuid) (status : Option String)
    (order_date_from order_date_to : Option Time)
    (min_total_price max_total_price : Option Int)
    (xs : List OrderRead) : List OrderRead :=
  let f1 := match user_id with
    | some u => xs.filter (fun o => o.user_id = u)
    | none => xs
  let f2 := match status with
    | some s => f1.filter (fun o => o.status = s)
    | none => f1
  let f3 := match order_date_from with
    | some d => f2.filter (fun o => d ≤ o.order_date)
    | none => f2
  let f4 := match order_date_to with
    | some d => f3.filter (fun o => o.order_date ≤ d)
    | none => f3
  let f5 := match min_total_price with
    | some p => f4.filter (fun o => p ≤ o.total_price)
    | none => f4
  let f6 := match max_total_price with
    | some p => f5.filter (fun o => o.total_price ≤ p)
    | none => f5
  f6

/-- Stable insertion of one element into a sorted list (helper for the
embedding of Python `sorted`). -/
def insertLe (le : α → α → Bool) (x : α) : List α → List α
  | [] => [x]
  | y :: ys => if le x y then x :: y :: ys else y :: insertLe le x ys

/-- Sorting by a boolean comparison (embeds Python `sorted(key=...)`;
stability and the precise sorting algorithm are irrelevant to the claims). -/
def sortList (le : α → α → Bool) : List α → List α
  | [] => []
  | x :: xs => insertLe le x (sortList le xs)

/-- The `sort_fields` whitelist keys of `OrderResource.get_orders`. -/
def orderSortFields : List String :=
  ["order_id", "user_id", "order_date", "total_price", "status",
   "created_at", "updated_at"]

/-- Key comparison for one whitelisted sort field of an order. -/
def orderKeyLe (f : String) (a b : OrderRead) : Bool :=
  match f with
  | "order_id" => a.order_id ≤ b.order_id
  | "user_id" => a.user_id ≤ b.user_id
  | "order_date" => a.order_date ≤ b.order_date
  | "total_price" => a.total_price ≤ b.total_price
  | "status" => (compare a.status b.status).isLE
  | "created_at" => a.created_at ≤ b.created_at
  | "updated_at" => a.updated_at ≤ b.updated_at
  | _ => true

/-- The sorting stage of `OrderResource.get_orders`: sort only when `sort_by`
names a whitelisted field (unknown values silently ignored), descending when
`order` is `"desc"` (case-insensitively; a missing `order` is falsy). -/
def sortOrders (sort_by : Option String) (order : Option String)
    (xs : List OrderRead) : List OrderRead :=
  match sort_by with
  | none => xs
  | some f =>
      if orderSortFields.contains f then
        let reverse : Bool := match order with
          | some s => s.toLower == "desc"
          | none => false
        if reverse then sortList (fun a b => orderKeyLe f b a) xs
        else sortList (orderKeyLe f) xs
      else xs

/-- Embeds `OrderResource.get_orders`: filters, then sort, then pagination
(`offset` slice when `offset > 0`, then `limit` slice when `limit > 0`),
then the links backfill loop.  `all_orders` is `list(orders.values())`.
The backfill loop evaluates `if not order.links or len(order.links) == 0`
(order_resource.py:105) on each page element, so it raises `AttributeError`
at the first element of any nonempty page; only an empty page survives the
loop and is returned. -/
def get_orders (all_orders : List OrderRead)
    (user_id : Option Uuid) (status : Option String)
    (order_date_from order_date_to : Option Time)
    (min_total_price max_total_price : Option Int)
    (sort_by : Option String) (order : Option String)
    (limit offset : Option Nat) : Except OrderErr (List OrderRead) :=
  let filtered := filterOrders user_id status order_date_from order_date_to
    min_total_price max_total_price all_orders
  let sorted := sortOrders sort_by order filtered
  let afterOffset := match offset with
    | some k => if 0 < k then sorted.drop k else sorted
    | none => sorted
  let paged := match limit with
    | some n => if 0 < n then afterOffset.take n else afterOffset
    | none => afterOffset
  if paged.isEmpty then .ok paged else .error .attributeError

end OrderResource

-- ---------------------------------------------------------------------------
-- src/resources/order_detail_resource.py
-- ---------------------------------------------------------------------------

/-- Embeds `OrderDetailRead` from src/models/order_detail.py (this model,
unlike `OrderRead`, declares `links`). -/
structure OrderDetailRead where
  order_id : Uuid
  prod_id : Uuid
  quantity : Int
  subtotal : Int
  created_at : Time
  updated_at : Time
  links : List (String × String)
deriving DecidableEq, Repr

/-- Embeds `OrderDetailCreate` from src/models/order_detail.py. -/
structure OrderDetailCreate where
  order_id : Uuid
  prod_id : Uuid
  quantity : Int
  subtotal : Int
deriving DecidableEq, Repr

/-- The in-memory `order_details` dict keyed by the composite
`(order_id, prod_id)`. -/
abbrev OrderDetailStore := Uuid × Uuid → Option OrderDetailRead

namespace OrderDetailResource

/-- Embeds `OrderDetailResource.create_order_detail`: build the read model
with `created_at = updated_at = now` and generated links, then assign it
under the composite key — a plain dict assignment, with no duplicate-key
check. -/
def create_order_detail (store : OrderDetailStore)
    (order_detail : OrderDetailCreate) (now : Time) :
    OrderDetailStore × OrderDetailRead :=
  let new_order_detail : OrderDetailRead :=
    { order_id := order_detail.order_id
      prod_id := order_detail.prod_id
      quantity := order_detail.quantity
      subtotal := order_detail.subtotal
      created_at := now
      updated_at := now
      links := Links.generate_order_detail_links order_detail.order_id
        order_detail.prod_id }
  (fun k => if k = (order_detail.order_id, order_detail.prod_id)
            then some new_order_detail else store k,
   new_order_detail)

end OrderDetailResource

-- ---------------------------------------------------------------------------
-- src/main.py — Order endpoints with the conditional-request protocol
-- ---------------------------------------------------------------------------

/-- The event payload built by `publish_order_event` in src/main.py
(order_id, user_id, total_price, status of the order). -/
structure OrderEvent where
  order_id : Uuid
  user_id : Uuid
  total_price : Int
  status : String
deriving DecidableEq, Repr

/-- Embeds the payload construction of `publish_order_event` (src/main.py).
Its only call site, inside the create handler's try-block, is never reached
(the handler raises at `new_order.links.get` first — see
`MainApi.create_order`). -/
def publish_order_event (order : OrderRead) : OrderEvent :=
  { order_id := order.order_id
    user_id := order.user_id
    total_price := order.total_price
    status := order.status }

namespace MainApi

/-- Response of `GET /orders/{order_id}`: HTTP status, `ETag` header when
set, and the order body when the response is not 304/404. -/
structure GetOrderResponse where
  status : Nat
  etag : Option (List Char)
  body : Option OrderRead
deriving DecidableEq, Repr

/-- Embeds the `get_order` handler of src/main.py: fetch the order (404 and
the links `AttributeError` propagate as their HTTP statuses), then — were an
order ever delivered — compute the current validator and answer 304 with
the current `ETag` and an empty body when a (truthy, i.e. nonempty)
`If-None-Match` header matches it, else 200 with the full body and the
current `ETag`.  Since `OrderResource.get_order` raises on every stored
order, the conditional branch is unreachable in the real service. -/
def get_order (digest : List (String × JVal) → List Char) (store : OrderStore)
    (order_id : Uuid) (if_none_match : Option (List Char)) : GetOrderResponse :=
  match OrderResource.get_order store order_id with
  | .error e => { status := e.toStatus, etag := none, body := none }
  | .ok order =>
      let current_etag := Etag.generate_etag digest (canonOrder order)
      match if_none_match with
      | some v =>
          if !v.isEmpty && Etag.etag_match v current_etag then
            { status := 304, etag := some current_etag, body := none }
          else
            { status := 200, etag := some current_etag, body := some order }
      | none => { status := 200, etag := some current_etag, body := some order }

/-- Response of `PUT /orders/{order_id}`: HTTP status, `ETag` header when
set, body when 200, the resulting order store, and the list of event-bus
publications made by the handler. -/
structure PutOrderResponse where
  status : Nat
  etag : Option (List Char)
  body : Option OrderRead
  store : OrderStore
  published : List OrderEvent

/-- Embeds the `update_order` handler of src/main.py: fetch the current
order first (404 and the links `AttributeError` propagate as their HTTP
statuses — so every PUT on a stored order stops here with 500), then — in
the unreachable continuation — 428 when no `If-Match` header is supplied,
412 carrying the current validator as `ETag` on a mismatch, otherwise the
resource update (whose links `ValueError` would also surface as 500).  The
handler makes no `publish_order_event` call (only the create handler
does). -/
def update_order (digest : List (String × JVal) → List Char) (store : OrderStore)
    (order_id : Uuid) (update : OrderUpdate) (if_match : Option (List Char))
    (now : Time) : PutOrderResponse :=
  match OrderResource.get_order store order_id with
  | .error e =>
      { status := e.toStatus, etag := none, body := none, store := store,
        published := [] }
  | .ok current_order =>
      let current_etag := Etag.generate_etag digest (canonOrder current_order)
      match if_match with
      | none =>
          { status := 428, etag := none, body := none, store := store, published := [] }
      | some v =>
          if !(Etag.etag_match v current_etag) then
            { status := 412, etag := some current_etag, body := none,
              store := store, published := [] }
          else
            match OrderResource.update_order store order_id update now with
            | (store2, .ok updated_order) =>
                { status := 200
                  etag := some (Etag.generate_etag digest (canonOrder updated_order))
                  body := some updated_order
                  store := store2
                  published := [] }
            | (store2, .error e) =>
                { status := e.toStatus, etag := none, body := none,
                  store := store2, published := [] }

/-- Response of `POST /orders`: status, headers and body when a response is
built, the resulting store, the event-bus publications performed, and the
log lines printed. -/
structure CreateOrderResponse where
  status : Nat
  etag : Option (List Char)
  location : Option String
  body : Option OrderRead
  store : OrderStore
  published : List OrderEvent
  log : List String

/-- Embeds the `create_order` handler of src/main.py: the resource create
runs (mutating the store) and the validator is computed from the new
order's dump, but the very next expression `new_order.links.get("self",
...)` (main.py:123) reads the undeclared `links` attribute and raises
`AttributeError` — BEFORE the `publish_order_event` try-block and before
the 201 response is built.  So every create answers 500 with no headers and
no publication, while the order is already stored. -/
def create_order (digest : List (String × JVal) → List Char) (store : OrderStore)
    (order : OrderCreate) (order_id : Uuid) (now : Time) :
    CreateOrderResponse :=
  let r := OrderResource.create_order store order order_id now
  let new_order := r.2
  let _etag := Etag.generate_etag digest (canonOrder new_order)
  { status := OrderErr.attributeError.toStatus
    etag := none
    location := none
    body := none
    store := r.1
    published := []
    log := [] }

end MainApi

-- ---------------------------------------------------------------------------
-- src/services/order_processing_service.py
-- ---------------------------------------------------------------------------

/-- A task record of the `task_statuses` dict: status string, timestamps,
result payload (the created order's id and dump, present when completed) and
error message (present when failed). -/
structure Task where
  task_id : Uuid
  status : String
  created_at : Time
  updated_at : Time
  result : Option (Uuid × OrderRead)
  error : Option String
deriving DecidableEq, Repr

/-- The `task_statuses` registry, a keyed partial map. -/
abbrev TaskRegistry := Uuid → Option Task

namespace OrderProcessingService

/-- Embeds `start_order_processing`: synchronously build the task record in
`pending` state with `created_at = updated_at = now` and empty
result/error, and return it with the status URL (the background thread is
scheduled separately; its effects are the `TaskStep` relation below). -/
def start_order_processing (task_id : Uuid) (now : Time) : Task × String :=
  ({ task_id := task_id
     status := "pending"
     created_at := now
     updated_at := now
     result := none
     error := none },
   "/tasks/" ++ uuidStr task_id ++ "/status")

/-- The task mutations performed by the background `process_order_async`
(src/services/order_processing_service.py), as a step relation.  The body
first sets the stored task to `processing` (the task is always registered
before the thread starts), then — after the simulated work and the order
creation — sets it exactly once to `completed` with the result, or, when
any of those later steps raises, to `failed` with the error string; each
mutation also refreshes `updated_at`. -/
inductive TaskStep : Task → Task → Prop where
  | toProcessing (t : Task) (u : Time) (h : t.status = "pending") :
      TaskStep t { t with status := "processing", updated_at := u }
  | toCompleted (t : Task) (u : Time) (oid : Uuid) (o : OrderRead)
      (h : t.status = "processing") :
      TaskStep t { t with status := "completed", updated_at := u,
                          result := some (oid, o) }
  | toFailed (t : Task) (u : Time) (e : String)
      (h : t.status = "processing") :
      TaskStep t { t with status := "failed", updated_at := u,
                          error := some e }

/-- Embeds `get_task_status`: 404 for an unknown id, otherwise a copy of the
current task snapshot together with the navigation links. -/
def get_task_status (registry : TaskRegistry) (task_id : Uuid) :
    Except Nat (Task × List (String × String)) :=
  match registry task_id with
  | none => .error 404
  | some task =>
      .ok (task, [("self", "/tasks/" ++ uuidStr task_id),
                  ("status", "/tasks/" ++ uuidStr task_id ++ "/status")])

end OrderProcessingService

-- ---------------------------------------------------------------------------
-- Helper lemmas
-- ---------------------------------------------------------------------------

lemma etag_match_true_iff (e1 e2 : List Char) :
    Etag.etag_match e1 e2 = true ↔
      Etag.normalize_etag e1 = Etag.normalize_etag e2 := by
  simp [Etag.etag_match]

-- ---------------------------------------------------------------------------
-- C10 — lenient validator comparison
-- ---------------------------------------------------------------------------

/-- C10: validator comparison is lenient beyond the weak/strong forms — for
every digest string `d` that starts neither with a double quote nor with the
weak marker `W/"`, `normalize_etag` leaves `d` unchanged, so a bare unquoted
validator token matches both the quoted strong form `"d"` and the weak form
`W/"d"` of the same digest. -/
theorem c10_lenient_validator_comparison (d : List Char)
    (h1 : [dq].isPrefixOf d = false)
    (h2 : ['W', '/', dq].isPrefixOf d = false) :
    Etag.normalize_etag d = d
    ∧ Etag.etag_match d (dq :: (d ++ [dq])) = true
    ∧ Etag.etag_match d ('W' :: '/' :: dq :: (d ++ [dq])) = true := by
  have hd : Etag.normalize_etag d = d := by
    simp [Etag.normalize_etag, h1, h2]
  refine ⟨hd, ?_, ?_⟩
  · rw [etag_match_true_iff, hd]
    have hWdq : ¬ ('W' = dq) := by decide
    simp [Etag.normalize_etag, List.isPrefixOf, hWdq, List.dropLast_concat]
  · rw [etag_match_true_iff, hd]
    simp [Etag.normalize_etag, List.isPrefixOf, List.dropLast_concat]

/-- Witness for C10 at the concrete bare token `abc`. -/
theorem c10_witness :
    Etag.normalize_etag ['a', 'b', 'c'] = ['a', 'b', 'c']
    ∧ Etag.etag_match ['a', 'b', 'c'] (dq :: (['a', 'b', 'c'] ++ [dq])) = true
    ∧ Etag.etag_match ['a', 'b', 'c']
        ('W' :: '/' :: dq :: (['a', 'b', 'c'] ++ [dq])) = true :=
  c10_lenient_validator_comparison ['a', 'b', 'c'] (by decide) (by decide)

-- ---------------------------------------------------------------------------
-- C9 — OrderDetail creation overwrites on a duplicate composite key
-- ---------------------------------------------------------------------------

/-- C9: two OrderDetail create calls with the same composite
`(order_id, prod_id)` key: the second create overwrites the first — the
store afterwards maps that key to the second entity (built entirely from the
second input, no duplicate-key rejection), and entries at every other key
are unchanged. -/
theorem c9_detail_composite_key_overwrite
    (store : OrderDetailStore) (inp1 inp2 : OrderDetailCreate)
    (now1 now2 : Time)
    (hoid : inp2.order_id = inp1.order_id)
    (hpid : inp2.prod_id = inp1.prod_id) :
    (OrderDetailResource.create_order_detail
        (OrderDetailResource.create_order_detail store inp1 now1).1 inp2 now2).1
        (inp1.order_id, inp1.prod_id)
      = some (OrderDetailResource.create_order_detail
          (OrderDetailResource.create_order_detail store inp1 now1).1 inp2 now2).2
    ∧ (OrderDetailResource.create_order_detail
        (OrderDetailResource.create_order_detail store inp1 now1).1 inp2 now2).2
      = { order_id := inp2.order_id, prod_id := inp2.prod_id,
          quantity := inp2.quantity, subtotal := inp2.subtotal,
          created_at := now2, updated_at := now2,
          links := Links.generate_order_detail_links inp2.order_id inp2.prod_id }
    ∧ ∀ k, k ≠ (inp1.order_id, inp1.prod_id) →
        (OrderDetailResource.create_order_detail
          (OrderDetailResource.create_order_detail store inp1 now1).1 inp2 now2).1 k
        = store k := by
  refine ⟨?_, rfl, ?_⟩
  · simp [OrderDetailResource.create_order_detail, hoid, hpid]
  · intro k hk
    have hk2 : ¬ (k = (inp2.order_id, inp2.prod_id)) := by
      rw [hoid, hpid]; exact hk
    simp [OrderDetailResource.create_order_detail, hk, hk2]

/-- Witness for C9: re-creating the detail at composite key (1, 2) with a
different quantity overwrites the first entry and leaves key (3, 3) alone. -/
theorem c9_witness :
    (OrderDetailResource.create_order_detail
        (OrderDetailResource.create_order_detail (fun _ => none)
          ⟨1, 2, 2, 100⟩ 10).1 ⟨1, 2, 5, 250⟩ 20).1 (1, 2)
      = some (OrderDetailResource.create_order_detail
          (OrderDetailResource.create_order_detail (fun _ => none)
            ⟨1, 2, 2, 100⟩ 10).1 ⟨1, 2, 5, 250⟩ 20).2
    ∧ (OrderDetailResource.create_order_detail
        (OrderDetailResource.create_order_detail (fun _ => none)
          ⟨1, 2, 2, 100⟩ 10).1 ⟨1, 2, 5, 250⟩ 20).1 (3, 3)
      = none :=
  ⟨(c9_detail_composite_key_overwrite (fun _ => none) ⟨1, 2, 2, 100⟩
      ⟨1, 2, 5, 250⟩ 10 20 rfl rfl).1,
   (c9_detail_composite_key_overwrite (fun _ => none) ⟨1, 2, 2, 100⟩
      ⟨1, 2, 5, 250⟩ 10 20 rfl rfl).2.2 (3, 3) (by decide)⟩

-- ---------------------------------------------------------------------------
-- C7 — partial update never commits
-- ---------------------------------------------------------------------------

/-- Sample stored order shared by the concrete theorems. -/
def oA : OrderRead :=
  { order_id := 1, user_id := 7, order_date := 3, total_price := 100,
    status := "pending", created_at := 3, updated_at := 3 }

/-- Sample order store holding `oA` under id 1. -/
def storeA : OrderStore := fun k => if k = 1 then some oA else none

/-- C7 (code bug): at the failing input — a partial update of stored order
1 changing only `total_price` and `status` — `OrderResource.update_order`
raises `ValueError` at the links assignment (order_resource.py:138) before
the store assignment, so the update never commits and the store is
unchanged; the merged order the code had constructed (identity and
`created_at` preserved, `updated_at` refreshed, partial fields overwritten)
is discarded.  Only the claim's 404-on-absent-key half is real behavior. -/
theorem c7_update_never_commits :
    OrderResource.update_order storeA 1
        ⟨none, none, some 250, some "shipped"⟩ 9
      = (storeA, .error .valueError)
    ∧ OrderResource.update_order (fun _ => none) 1
        ⟨none, none, some 250, some "shipped"⟩ 9
      = ((fun _ => none : OrderStore), .error .httpNotFound)
    ∧ OrderResource.mergedOrder oA ⟨none, none, some 250, some "shipped"⟩ 1 9
      = { order_id := 1, user_id := 7, order_date := 3, total_price := 250,
          status := "shipped", created_at := 3, updated_at := 9 } :=
  ⟨rfl, rfl, rfl⟩

-- ---------------------------------------------------------------------------
-- C8 — list endpoint crashes on any nonempty page
-- ---------------------------------------------------------------------------

/-- Second sample order for the list-endpoint theorem. -/
def oB : OrderRead :=
  { order_id := 2, user_id := 7, order_date := 4, total_price := 50,
    status := "shipped", created_at := 4, updated_at := 4 }

/-- Third sample order for the list-endpoint theorem. -/
def oC : OrderRead :=
  { order_id := 3, user_id := 8, order_date := 5, total_price := 70,
    status := "pending", created_at := 5, updated_at := 5 }

/-- C8 (code bug): at the failing input — three stored orders, `limit = 1`,
`offset = 1`, a nonempty page — `OrderResource.get_orders` raises
`AttributeError` in the links backfill loop (order_resource.py:105) instead
of returning the claimed `min N (length - K)` items; only empty pages
survive the loop (offset beyond the sequence, or an empty store), and then
zero items are returned, never the claimed page. -/
theorem c8_list_crashes_on_nonempty_page :
    OrderResource.get_orders [oA, oB, oC] none none none none none none
        none none (some 1) (some 1) = .error .attributeError
    ∧ OrderResource.get_orders [oA, oB, oC] none none none none none none
        none none (some 1) (some 5) = .ok []
    ∧ OrderResource.get_orders [] none none none none none none
        none none (some 1) (some 0) = .ok [] :=
  ⟨rfl, rfl, rfl⟩

-- ---------------------------------------------------------------------------
-- C2 — conditional GET never reached for a stored order
-- ---------------------------------------------------------------------------

/-- Digest stand-in used by the concrete theorems: distinguishes the
canonical dump of `oA` from every other dump. -/
def digestA : List (String × JVal) → List Char :=
  fun c => if c = canonOrder oA then ['p'] else ['q']

/-- C2 (code bug): at the failing input — a GET of stored order 1 — the
handler's `OrderResource.get_order` raises `AttributeError` at the links
backfill check (order_resource.py:117), so the response is 500 with no
`ETag` and no body whatever `If-None-Match` is sent (absent, matching the
true validator of the stored dump, or arbitrary), never the claimed
304/200-with-ETag; only the absent-id 404 is reachable. -/
theorem c2_get_on_stored_order_500 :
    MainApi.get_order digestA storeA 1 none
      = { status := 500, etag := none, body := none }
    ∧ MainApi.get_order digestA storeA 1
        (some (Etag.generate_etag digestA (canonOrder oA)))
      = { status := 500, etag := none, body := none }
    ∧ MainApi.get_order digestA storeA 1 (some ['x'])
      = { status := 500, etag := none, body := none }
    ∧ MainApi.get_order digestA (fun _ => none) 1 none
      = { status := 404, etag := none, body := none } :=
  ⟨rfl, rfl, rfl, rfl⟩

-- ---------------------------------------------------------------------------
-- C1 — conditional PUT protocol never reached for a stored order
-- ---------------------------------------------------------------------------

/-- C1 (code bug): at the failing input — a PUT on stored order 1 — the
handler's initial `OrderResource.get_order` raises `AttributeError` at the
links backfill check (order_resource.py:117) before any `If-Match` logic,
so the response is 500 with no `ETag`, no body and the store unchanged,
whether `If-Match` is absent (the claim says 428), wrong (the claim says
412 with the current validator), or equal to the true validator of the
stored dump (the claim says 200 with a new validator); only the absent-id
404 is reachable. -/
theorem c1_put_on_stored_order_500 :
    MainApi.update_order digestA storeA 1
        ⟨none, none, some 250, some "shipped"⟩ none 9
      = { status := 500, etag := none, body := none, store := storeA,
          published := [] }
    ∧ MainApi.update_order digestA storeA 1
        ⟨none, none, some 250, some "shipped"⟩ (some ['x']) 9
      = { status := 500, etag := none, body := none, store := storeA,
          published := [] }
    ∧ MainApi.update_order digestA storeA 1
        ⟨none, none, some 250, some "shipped"⟩
        (some (Etag.generate_etag digestA (canonOrder oA))) 9
      = { status := 500, etag := none, body := none, store := storeA,
          published := [] }
    ∧ MainApi.update_order digestA (fun _ => none) 1
        ⟨none, none, some 250, some "shipped"⟩ none 9
      = { status := 404, etag := none, body := none, store := fun _ => none,
          published := [] } :=
  ⟨rfl, rfl, rfl, rfl⟩

-- ---------------------------------------------------------------------------
-- C3 — validator sensitivity holds, but no conditional PUT ever succeeds
-- ---------------------------------------------------------------------------

/-- C3 (code bug): the validator itself is sensitive to field changes — at
the concrete instance, changing only `updated_at` of `oA` changes the
validator of its canonical dump — but the claim's consequence about the
validator returned by a successful conditional PUT is about a flow the code
never completes: at the failing input (PUT on stored order 1 with the
`If-Match` equal to the true validator of the stored dump) the handler
answers 500 with no `ETag` (the links `AttributeError` of
order_resource.py:117 fires before the match check and the update), so no
conditional PUT ever succeeds and no new validator is ever returned. -/
theorem c3_validator_sensitivity_unreachable_put :
    Etag.generate_etag digestA (canonOrder oA)
      ≠ Etag.generate_etag digestA (canonOrder { oA with updated_at := 9 })
    ∧ (MainApi.update_order digestA storeA 1
        ⟨none, none, some 250, some "shipped"⟩
        (some (Etag.generate_etag digestA (canonOrder oA))) 9).status = 500
    ∧ (MainApi.update_order digestA storeA 1
        ⟨none, none, some 250, some "shipped"⟩
        (some (Etag.generate_etag digestA (canonOrder oA))) 9).etag = none :=
  ⟨by decide, rfl, rfl⟩

-- ---------------------------------------------------------------------------
-- C5 — no event notification ever happens, and creates do not succeed
-- ---------------------------------------------------------------------------

/-- C5 (code bug): at the failing input — POST /orders with a valid body —
the handler stores the order (the resource-layer mutation has already
committed) but raises `AttributeError` at `new_order.links.get`
(main.py:123) BEFORE the `publish_order_event` try-block and before the 201
response, so the create answers 500, publishes nothing, and returns no
body, `ETag` or `Location`; the update handler contains no publish call at
all, so a PUT publishes nothing either.  Creates thus neither succeed nor
notify, against the claimed best-effort notification on every successful
create/update. -/
theorem c5_create_crashes_before_publish :
    (MainApi.create_order digestA (fun _ => none) ⟨7, 100, "pending"⟩ 1 3).status
      = 500
    ∧ (MainApi.create_order digestA (fun _ => none) ⟨7, 100, "pending"⟩ 1 3).published
      = []
    ∧ (MainApi.create_order digestA (fun _ => none) ⟨7, 100, "pending"⟩ 1 3).etag
      = none
    ∧ (MainApi.create_order digestA (fun _ => none) ⟨7, 100, "pending"⟩ 1 3).store 1
      = some (OrderResource.create_order (fun _ => none) ⟨7, 100, "pending"⟩
          1 3).2
    ∧ (MainApi.update_order digestA storeA 1
        ⟨none, none, some 250, some "shipped"⟩ (some ['x']) 9).published = [] :=
  ⟨rfl, rfl, rfl, rfl, rfl⟩

-- ---------------------------------------------------------------------------
-- C6 — async task lifecycle
-- ---------------------------------------------------------------------------

lemma task_terminal_no_step (t t' : Task)
    (hterm : t.status = "completed" ∨ t.status = "failed") :
    ¬ OrderProcessingService.TaskStep t t' := by
  intro hstep
  cases hstep with
  | toProcessing u hp =>
      rcases hterm with h1 | h1 <;> rw [h1] at hp <;> exact absurd hp (by decide)
  | toCompleted u oid o hp =>
      rcases hterm with h1 | h1 <;> rw [h1] at hp <;> exact absurd hp (by decide)
  | toFailed u e hp =>
      rcases hterm with h1 | h1 <;> rw [h1] at hp <;> exact absurd hp (by decide)

/-- C6: a task is created `pending` synchronously by the start call (with
its status URL); the background mutations only ever step pending →
processing and processing → exactly one of completed/failed — so
immediately after start the status is in {pending, processing}; no step
leaves a terminal task, hence along any sequence of steps a terminal task
stays identical, and `get_task_status` purely snapshots the registry, so
repeated polls of a terminal task return the same status and
result/error. -/
theorem c6_task_lifecycle :
    (∀ (task_id : Uuid) (now : Time),
        (OrderProcessingService.start_order_processing task_id now).1.status
          = "pending"
        ∧ (OrderProcessingService.start_order_processing task_id now).2
          = "/tasks/" ++ uuidStr task_id ++ "/status")
    ∧ (∀ t t', OrderProcessingService.TaskStep t t' →
        (t.status = "pending" ∧ t'.status = "processing")
        ∨ (t.status = "processing"
            ∧ (t'.status = "completed" ∨ t'.status = "failed")))
    ∧ (∀ t t', (t.status = "completed" ∨ t.status = "failed") →
        ¬ OrderProcessingService.TaskStep t t')
    ∧ (∀ t t', (t.status = "completed" ∨ t.status = "failed") →
        Relation.ReflTransGen OrderProcessingService.TaskStep t t' → t' = t)
    ∧ ∀ (registry : TaskRegistry) (task_id : Uuid) (t : Task),
        registry task_id = some t →
        OrderProcessingService.get_task_status registry task_id
          = .ok (t, [("self", "/tasks/" ++ uuidStr task_id),
                     ("status", "/tasks/" ++ uuidStr task_id ++ "/status")]) := by
  refine ⟨fun task_id now => ⟨rfl, rfl⟩, ?_, task_terminal_no_step, ?_, ?_⟩
  · intro t t' hstep
    cases hstep with
    | toProcessing u hp => exact Or.inl ⟨hp, rfl⟩
    | toCompleted u oid o hp => exact Or.inr ⟨hp, Or.inl rfl⟩
    | toFailed u e hp => exact Or.inr ⟨hp, Or.inr rfl⟩
  · intro t t' hterm hrtg
    rcases Relation.ReflTransGen.cases_head hrtg with h | ⟨mid, hstep, _⟩
    · exact h.symm
    · exact absurd hstep (task_terminal_no_step t mid hterm)
  · intro registry task_id t h
    simp [OrderProcessingService.get_task_status, h]

/-- Pending task produced by the concrete start call for the C6 witness. -/
def taskP : Task := (OrderProcessingService.start_order_processing 5 3).1

/-- The C6 witness task after the processing step. -/
def taskQ : Task := { taskP with status := "processing", updated_at := 4 }

/-- The C6 witness task after completion. -/
def taskC : Task :=
  { taskQ with status := "completed", updated_at := 6, result := some (1, oA) }

/-- Witness for C6: start at id 5, a concrete pending → processing step, no
step out of the completed task, terminal stability under the reflexive
closure, and a concrete poll of the completed task. -/
theorem c6_witness :
    ((OrderProcessingService.start_order_processing 5 3).1.status = "pending"
      ∧ (OrderProcessingService.start_order_processing 5 3).2
        = "/tasks/" ++ uuidStr 5 ++ "/status")
    ∧ ((taskP.status = "pending" ∧ taskQ.status = "processing")
        ∨ (taskP.status = "processing"
            ∧ (taskQ.status = "completed" ∨ taskQ.status = "failed")))
    ∧ ¬ OrderProcessingService.TaskStep taskC taskQ
    ∧ taskC = taskC
    ∧ OrderProcessingService.get_task_status
        (fun k => if k = 5 then some taskC else none) 5
      = .ok (taskC, [("self", "/tasks/" ++ uuidStr 5),
                     ("status", "/tasks/" ++ uuidStr 5 ++ "/status")]) :=
  ⟨c6_task_lifecycle.1 5 3,
   c6_task_lifecycle.2.1 taskP taskQ
     (OrderProcessingService.TaskStep.toProcessing taskP 4 rfl),
   c6_task_lifecycle.2.2.1 taskC taskQ (Or.inl rfl),
   c6_task_lifecycle.2.2.2.1 taskC taskC (Or.inl rfl)
     Relation.ReflTransGen.refl,
   c6_task_lifecycle.2.2.2.2 (fun k => if k = 5 then some taskC else none)
     5 taskC rfl⟩

-- ---------------------------------------------------------------------------
-- C4 — order representations lack the links field the contract requires
-- ---------------------------------------------------------------------------

/-- C4: the contract requires every returned entity representation (Order,
Payment, OrderDetail alike) to carry a populated `links` mapping, but
models/order.py declares no `links` field on `OrderRead`: the model dump of
a freshly created order — which is both the JSON response body and the ETag
input — contains no `links` key (its keys are exactly `orderReadFields`),
whereas `OrderDetailRead` and `PaymentRead` do declare `links`.  The repo's
own tests (test_linked_data.py, test_post_201.py) assert a `links` mapping
on order responses, so this is a defect of the code, not of the claim. -/
theorem c4_order_representation_lacks_links :
    "links" ∉ orderReadFields
    ∧ "links" ∉ ((canonOrder (OrderResource.create_order (fun _ => none)
        ⟨7, 100, "pending"⟩ 1 3).2).map Prod.fst)
    ∧ "links" ∈ orderDetailReadFields
    ∧ "links" ∈ paymentReadFields := by
  refine ⟨by decide, by decide, by decide, by decide⟩

end OrderService
